import Mathlib

/-!
Verification of the product-catalog CRUD core of `aw_api_final`.

The embedding follows the repository source:
  * `src/api/models/product.py` — the pydantic/SQLModel models `ProductBase`,
    `ProductCreate`, `ProductUpdate` and the stored `Product` table model,
    with their field constraints and custom validators;
  * `src/api/routes/products.py` — the route handlers `get_product`,
    `create_product`, `update_product`.

Modelling conventions:
  * `Decimal` fields become `ℚ` (comparisons on `Decimal` are exact, as on `ℚ`);
  * `datetime` fields become `Int` (only ordering is relevant; a `datetime`
    object is always truthy in Python, so presence is the only other aspect);
  * `bytes` becomes `List Nat`;
  * pydantic collects one error list per request, each error tagged with the
    field name; validators receive `values`, the previously validated fields
    in declaration order, and a field is absent from `values` when its own
    validation failed.  Error-message strings mirror the source but the exact
    text is never load-bearing in the theorems.
  * `ProductBase.validate_list_price` in the source has no `return` statement,
    so on success pydantic stores `None` as the validated `list_price`; the
    validated-record type therefore carries `Option ℚ` for that field, and so
    does the stored row (the Python attribute can hold `None`).
  * The storage collaborator (SQL session) is modelled as a list of rows;
    reads do not change it, and a handler that raises an HTTPException
    returns the store unchanged (no commit happened).
-/

/-- A validation error as reported by pydantic: field name and message. -/
abbrev FieldError := String × String

/-- Outcome taxonomy of the route handlers: 422 field-validation failure
(raised by the FastAPI boundary when parsing the payload model), 404 not-found
carrying the requested id, 409 conflict naming the colliding product number. -/
inductive ApiError where
  | validation : List FieldError → ApiError
  | notFound : Int → ApiError
  | conflict : String → ApiError
deriving Repr, DecidableEq

/-- Hexadecimal digit test, as accepted by Python's `int(s, 16)` digits. -/
def isHexChar (c : Char) : Bool :=
  c.isDigit || ('a' ≤ c && c ≤ 'f') || ('A' ≤ c && c ≤ 'F')

/-- Left-to-right removal of every occurrence of `pat`, fuel-indexed so that
the recursion is structural; each step consumes at least one character, so
`fuel = l.length` is always enough. -/
def removeSubAux (pat : List Char) : Nat → List Char → List Char
  | _, [] => []
  | 0, l => l
  | fuel + 1, c :: cs =>
    if pat ≠ [] ∧ pat.isPrefixOf (c :: cs) then
      removeSubAux pat fuel ((c :: cs).drop pat.length)
    else
      c :: removeSubAux pat fuel cs

/-- Removal of every occurrence of `pat` from `l`, after Python's
`str.replace(pat, '')`. -/
def removeSub (pat : List Char) (l : List Char) : List Char :=
  removeSubAux pat l.length l

/-- Python's `str.strip('{}')`: drop every leading and trailing `{` or `}`. -/
def stripBraces (l : List Char) : List Char :=
  ((l.dropWhile fun c => c = '{' || c = '}').reverse.dropWhile
    fun c => c = '{' || c = '}').reverse

/-- `ProductBase.validate_rowguid` / `ProductUpdate.validate_rowguid` call
`uuid.UUID(v)`, which strips `urn:` / `uuid:` prefixes and braces, removes
hyphens, and then requires 32 hexadecimal digits. -/
def isValidUUID (s : String) : Bool :=
  let l := removeSub "uuid:".data (removeSub "urn:".data s.data)
  let l := removeSub ['-'] (stripBraces l)
  l.length = 32 && l.all isHexChar

/-- The create payload (`ProductCreate`, inheriting every field of
`ProductBase`): required fields are plain, optional fields are `Option`. -/
structure ProductCreatePayload where
  name : String
  product_number : String
  color : Option String
  size : Option String
  weight : Option ℚ
  standard_cost : ℚ
  list_price : ℚ
  product_category_id : Option Int
  product_model_id : Option Int
  sell_start_date : Int
  sell_end_date : Option Int
  discontinued_date : Option Int
  thumbnail_photo : Option (List Nat)
  thumbnail_photo_file_name : Option String
  rowguid : String
deriving Repr, DecidableEq

/-- A validated `ProductCreate` instance.  `list_price` is `Option ℚ`
because `ProductBase.validate_list_price` has no `return v`: pydantic stores
the validator's return value, `None`, on success. -/
structure ProductCreateValidated where
  name : String
  product_number : String
  color : Option String
  size : Option String
  weight : Option ℚ
  standard_cost : ℚ
  list_price : Option ℚ
  product_category_id : Option Int
  product_model_id : Option Int
  sell_start_date : Int
  sell_end_date : Option Int
  discontinued_date : Option Int
  thumbnail_photo : Option (List Nat)
  thumbnail_photo_file_name : Option String
  rowguid : String
deriving Repr, DecidableEq

def minLenMsg (n : Nat) : String := s!"ensure this value has at least {n} characters"
def maxLenMsg (n : Nat) : String := s!"ensure this value has at most {n} characters"
def gtZeroMsg : String := "ensure this value is greater than 0"

/-- `name: str = Field(min_length=1, max_length=100)`. -/
def nameErrors (p : ProductCreatePayload) : List FieldError :=
  if p.name.length < 1 then [("name", minLenMsg 1)]
  else if p.name.length > 100 then [("name", maxLenMsg 100)]
  else []

/-- `product_number: str = Field(min_length=1, max_length=50)`. -/
def productNumberErrors (p : ProductCreatePayload) : List FieldError :=
  if p.product_number.length < 1 then [("product_number", minLenMsg 1)]
  else if p.product_number.length > 50 then [("product_number", maxLenMsg 50)]
  else []

/-- `color: str | None = Field(default=None, min_length=1, max_length=30)`. -/
def colorErrors (p : ProductCreatePayload) : List FieldError :=
  match p.color with
  | none => []
  | some c =>
    if c.length < 1 then [("color", minLenMsg 1)]
    else if c.length > 30 then [("color", maxLenMsg 30)]
    else []

/-- `size: str | None = Field(default=None, max_length=10)`. -/
def sizeErrors (p : ProductCreatePayload) : List FieldError :=
  match p.size with
  | none => []
  | some s => if s.length > 10 then [("size", maxLenMsg 10)] else []

/-- `weight: Decimal | None = Field(default=None, gt=0)`. -/
def weightErrors (p : ProductCreatePayload) : List FieldError :=
  match p.weight with
  | none => []
  | some w => if w ≤ 0 then [("weight", gtZeroMsg)] else []

/-- `standard_cost: Decimal = Field(gt=0)`. -/
def standardCostErrors (p : ProductCreatePayload) : List FieldError :=
  if p.standard_cost ≤ 0 then [("standard_cost", gtZeroMsg)] else []

/-- `list_price: Decimal = Field(gt=0)` plus
`ProductBase.validate_list_price`: the validator sees `standard_cost` in
`values` only when that field passed its own `gt=0` check, and raises when
`v <= standard_cost`. -/
def listPriceMsg (v sc : ℚ) : String :=
  s!"List price ({v}) must be greater than standard cost ({sc})"

def listPriceErrors (p : ProductCreatePayload) : List FieldError :=
  if p.list_price ≤ 0 then [("list_price", gtZeroMsg)]
  else if 0 < p.standard_cost ∧ p.list_price ≤ p.standard_cost then
    [("list_price", listPriceMsg p.list_price p.standard_cost)]
  else []

/-- `product_category_id: int | None = Field(default=None, gt=0)`. -/
def productCategoryIdErrors (p : ProductCreatePayload) : List FieldError :=
  match p.product_category_id with
  | none => []
  | some i => if i ≤ 0 then [("product_category_id", gtZeroMsg)] else []

/-- `product_model_id: int | None = Field(default=None, gt=0)`. -/
def productModelIdErrors (p : ProductCreatePayload) : List FieldError :=
  match p.product_model_id with
  | none => []
  | some i => if i ≤ 0 then [("product_model_id", gtZeroMsg)] else []

/-- `ProductBase.validate_sell_end_date`: `sell_start_date` is a required
`datetime` with no constraint of its own, so it is always in `values`;
a `datetime` is always truthy, so `if v and start` is a presence test. -/
def sellEndDateErrors (p : ProductCreatePayload) : List FieldError :=
  match p.sell_end_date with
  | none => []
  | some v =>
    if v < p.sell_start_date then
      [("sell_end_date", "sell_end_date must be after sell_start_date")]
    else []

/-- `ProductBase.validate_discontinued_date`, same shape. -/
def discontinuedDateErrors (p : ProductCreatePayload) : List FieldError :=
  match p.discontinued_date with
  | none => []
  | some v =>
    if v < p.sell_start_date then
      [("discontinued_date", "discontinued_date must be after sell_start_date")]
    else []

/-- `thumbnail_photo_file_name: str | None = Field(default=None, max_length=100)`. -/
def thumbnailFileNameErrors (p : ProductCreatePayload) : List FieldError :=
  match p.thumbnail_photo_file_name with
  | none => []
  | some f =>
    if f.length > 100 then [("thumbnail_photo_file_name", maxLenMsg 100)] else []

/-- `ProductBase.validate_rowguid`. -/
def rowguidErrors (p : ProductCreatePayload) : List FieldError :=
  if isValidUUID p.rowguid then []
  else [("rowguid", "rowguid must be a valid UUID string")]

/-- All field errors of a `ProductCreate` payload, in field-declaration
order; pydantic collects them all rather than failing fast. -/
def createFieldErrors (p : ProductCreatePayload) : List FieldError :=
  nameErrors p ++ productNumberErrors p ++ colorErrors p ++ sizeErrors p ++
  weightErrors p ++ standardCostErrors p ++ listPriceErrors p ++
  productCategoryIdErrors p ++ productModelIdErrors p ++
  sellEndDateErrors p ++ discontinuedDateErrors p ++
  thumbnailFileNameErrors p ++ rowguidErrors p

/-- Validation of a `ProductCreate` payload: either the full error list, or
the validated record.  `list_price` comes back as `none` because
`validate_list_price` never returns the value. -/
def validateCreate (p : ProductCreatePayload) :
    Except (List FieldError) ProductCreateValidated :=
  if (createFieldErrors p).isEmpty then
    .ok
      { name := p.name
        product_number := p.product_number
        color := p.color
        size := p.size
        weight := p.weight
        standard_cost := p.standard_cost
        list_price := none
        product_category_id := p.product_category_id
        product_model_id := p.product_model_id
        sell_start_date := p.sell_start_date
        sell_end_date := p.sell_end_date
        discontinued_date := p.discontinued_date
        thumbnail_photo := p.thumbnail_photo
        thumbnail_photo_file_name := p.thumbnail_photo_file_name
        rowguid := p.rowguid }
  else .error (createFieldErrors p)

/-- The partial-update payload (`ProductUpdate`): every field optional.
`none` means the field was not supplied (pydantic's `exclude_unset` omits
it from the merge).  For columns that are nullable in the `Product` table
the inner type is again an `Option`, so `some none` is an explicit JSON
null, which counts as set.  For columns that are `NOT NULL` in the table an
explicit null would be rejected by storage at commit, outside the modelled
scope, so their payload entry is a single `Option`. -/
structure UpdatePayload where
  name : Option String
  product_number : Option String
  color : Option (Option String)
  size : Option (Option String)
  weight : Option (Option ℚ)
  standard_cost : Option ℚ
  list_price : Option ℚ
  product_category_id : Option (Option Int)
  product_model_id : Option (Option Int)
  sell_start_date : Option Int
  sell_end_date : Option (Option Int)
  discontinued_date : Option (Option Int)
  thumbnail_photo : Option (Option (List Nat))
  thumbnail_photo_file_name : Option (Option String)
  rowguid : Option String
deriving Repr, DecidableEq

/-- The payload with no field set: `PUT` with body `{}`. -/
def emptyUpdate : UpdatePayload :=
  { name := none, product_number := none, color := none, size := none
    weight := none, standard_cost := none, list_price := none
    product_category_id := none, product_model_id := none
    sell_start_date := none, sell_end_date := none, discontinued_date := none
    thumbnail_photo := none, thumbnail_photo_file_name := none
    rowguid := none }

/-- Validation of a `ProductUpdate` payload.  Field constraints apply only
when a non-null value is supplied; each custom validator returns early on
`None` and cross-checks only against other values of the same payload
(`values.get(...)`), never against the stored record.
`ProductUpdate.validate_list_price` uses the non-strict `v < standard_cost`
comparison of the source. -/
def validateUpdatePayload (u : UpdatePayload) : List FieldError :=
  let nameErrs :=
    match u.name with
    | none => []
    | some n =>
      if n.length < 1 then [("name", minLenMsg 1)]
      else if n.length > 100 then [("name", maxLenMsg 100)]
      else []
  let pnErrs :=
    match u.product_number with
    | none => []
    | some n =>
      if n.length < 1 then [("product_number", minLenMsg 1)]
      else if n.length > 50 then [("product_number", maxLenMsg 50)]
      else []
  let colorErrs :=
    match u.color.join with
    | none => []
    | some c =>
      if c.length < 1 then [("color", minLenMsg 1)]
      else if c.length > 30 then [("color", maxLenMsg 30)]
      else []
  let sizeErrs :=
    match u.size.join with
    | none => []
    | some s => if s.length > 10 then [("size", maxLenMsg 10)] else []
  let weightErrs :=
    match u.weight.join with
    | none => []
    | some w => if w ≤ 0 then [("weight", gtZeroMsg)] else []
  let scErrs :=
    match u.standard_cost with
    | none => []
    | some sc => if sc ≤ 0 then [("standard_cost", gtZeroMsg)] else []
  let lpErrs :=
    match u.list_price with
    | none => []
    | some v =>
      if v ≤ 0 then [("list_price", gtZeroMsg)]
      else
        match u.standard_cost with
        | none => []
        | some sc =>
          if 0 < sc ∧ v < sc then
            [("list_price", "list_price must be greater than or equal to standard cost.")]
          else []
  let catErrs :=
    match u.product_category_id.join with
    | none => []
    | some i => if i ≤ 0 then [("product_category_id", gtZeroMsg)] else []
  let modErrs :=
    match u.product_model_id.join with
    | none => []
    | some i => if i ≤ 0 then [("product_model_id", gtZeroMsg)] else []
  let seErrs :=
    match u.sell_end_date.join with
    | none => []
    | some v =>
      match u.sell_start_date with
      | none => []
      | some s =>
        if v < s then [("sell_end_date", "sell_end_date must be after sell_start_date")]
        else []
  let ddErrs :=
    match u.discontinued_date.join with
    | none => []
    | some v =>
      match u.sell_start_date with
      | none => []
      | some s =>
        if v < s then
          [("discontinued_date", "discontinued_date must be after sell_start_date")]
        else []
  let fnErrs :=
    match u.thumbnail_photo_file_name.join with
    | none => []
    | some f =>
      if f.length > 100 then [("thumbnail_photo_file_name", maxLenMsg 100)] else []
  let rgErrs :=
    match u.rowguid with
    | none => []
    | some v =>
      if isValidUUID v then [] else [("rowguid", "rowguid must be a valid UUID string")]
  nameErrs ++ pnErrs ++ colorErrs ++ sizeErrs ++ weightErrs ++ scErrs ++
  lpErrs ++ catErrs ++ modErrs ++ seErrs ++ ddErrs ++ fnErrs ++ rgErrs

/-- A stored `Product` row (the SQLModel table model as an in-memory
object).  `list_price` is `Option ℚ`: the Python attribute holds whatever
was assigned, and rows built from a validated create carry `None` there
(see `ProductCreateValidated.list_price`). -/
structure ProductRow where
  product_id : Int
  name : String
  product_number : String
  color : Option String
  size : Option String
  weight : Option ℚ
  standard_cost : ℚ
  list_price : Option ℚ
  product_category_id : Option Int
  product_model_id : Option Int
  sell_start_date : Int
  sell_end_date : Option Int
  discontinued_date : Option Int
  thumbnail_photo : Option (List Nat)
  thumbnail_photo_file_name : Option String
  rowguid : String
  modified_date : Int
deriving Repr, DecidableEq

/-- The storage collaborator: the set of committed rows. -/
abbrev Store := List ProductRow

/-- `session.get(Product, product_id)`: lookup by primary key. -/
def lookupStore (store : Store) (pid : Int) : Option ProductRow :=
  store.find? fun r => r.product_id == pid

/-- `session.exec(select(Product).where(Product.product_number == pn)).first()`. -/
def findByNumber (store : Store) (pn : String) : Option ProductRow :=
  store.find? fun r => r.product_number == pn

/-- `GET /products/{product_id}` (`get_product`): 404 carrying the id when
absent.  A read leaves the store untouched, which the type records by not
returning a store at all. -/
def get_product (store : Store) (pid : Int) : Except ApiError ProductRow :=
  match lookupStore store pid with
  | some p => .ok p
  | none => .error (.notFound pid)

/-- `Product.model_validate(product)` on a validated create, with
`modified_date` freshly assigned by its `default_factory` and the primary
key left to storage (modelled as the `newId` argument). -/
def rowOfValidated (newId : Int) (now : Int) (v : ProductCreateValidated) :
    ProductRow :=
  { product_id := newId
    name := v.name
    product_number := v.product_number
    color := v.color
    size := v.size
    weight := v.weight
    standard_cost := v.standard_cost
    list_price := v.list_price
    product_category_id := v.product_category_id
    product_model_id := v.product_model_id
    sell_start_date := v.sell_start_date
    sell_end_date := v.sell_end_date
    discontinued_date := v.discontinued_date
    thumbnail_photo := v.thumbnail_photo
    thumbnail_photo_file_name := v.thumbnail_photo_file_name
    rowguid := v.rowguid
    modified_date := now }

/-- `POST /products/` (`create_product`).  The FastAPI boundary validates
the `ProductCreate` body first; the handler then checks `product_number`
uniqueness and commits the new row.  Every error path returns the store
unchanged (the exception is raised before any commit). -/
def create_product (store : Store) (p : ProductCreatePayload)
    (newId : Int) (now : Int) : Except ApiError ProductRow × Store :=
  match validateCreate p with
  | .error es => (.error (.validation es), store)
  | .ok v =>
    match findByNumber store v.product_number with
    | some _ => (.error (.conflict v.product_number), store)
    | none =>
      let row := rowOfValidated newId now v
      (.ok row, store ++ [row])

/-- `setattr(db_product, key, value)` for every key of
`product.model_dump(exclude_unset=True)`: supplied fields overwrite, absent
fields stay.  `product_id` is not a field of `ProductUpdate`, so the loop
can never touch it. -/
def mergeUpdate (db : ProductRow) (u : UpdatePayload) : ProductRow :=
  { db with
    name := u.name.getD db.name
    product_number := u.product_number.getD db.product_number
    color := u.color.getD db.color
    size := u.size.getD db.size
    weight := u.weight.getD db.weight
    standard_cost := u.standard_cost.getD db.standard_cost
    list_price := (u.list_price.map some).getD db.list_price
    product_category_id := u.product_category_id.getD db.product_category_id
    product_model_id := u.product_model_id.getD db.product_model_id
    sell_start_date := u.sell_start_date.getD db.sell_start_date
    sell_end_date := u.sell_end_date.getD db.sell_end_date
    discontinued_date := u.discontinued_date.getD db.discontinued_date
    thumbnail_photo := u.thumbnail_photo.getD db.thumbnail_photo
    thumbnail_photo_file_name :=
      u.thumbnail_photo_file_name.getD db.thumbnail_photo_file_name
    rowguid := u.rowguid.getD db.rowguid }

/-- The uniqueness guard of `update_product`: only when the payload supplies
a `product_number` different from the stored one does the handler query the
store, and a hit yields the colliding number. -/
def updateConflict (store : Store) (db : ProductRow) (u : UpdatePayload) :
    Option String :=
  match u.product_number with
  | some pn =>
    if pn ≠ db.product_number ∧ (findByNumber store pn).isSome then some pn
    else none
  | none => none

/-- `PUT /products/{product_id}` (`update_product`).  The FastAPI boundary
validates the `ProductUpdate` body; the handler loads the row (404 if
absent), checks `product_number` uniqueness only when a different number is
supplied (409), merges the set fields, reassigns `modified_date`, and
commits.  Error paths return the store unchanged. -/
def update_product (store : Store) (pid : Int) (u : UpdatePayload)
    (now : Int) : Except ApiError ProductRow × Store :=
  match validateUpdatePayload u with
  | _ :: _ => (.error (.validation (validateUpdatePayload u)), store)
  | [] =>
    match lookupStore store pid with
    | none => (.error (.notFound pid), store)
    | some db =>
      match updateConflict store db u with
      | some pn => (.error (.conflict pn), store)
      | none =>
        (.ok { mergeUpdate db u with modified_date := now },
         store.map fun r =>
           if r.product_id == pid then { mergeUpdate db u with modified_date := now }
           else r)

/-! ## General lemmas about the embedded code -/

/-- A list with a member is not empty. -/
theorem isEmpty_false_of_mem {α} {x : α} {l : List α} (h : x ∈ l) :
    l.isEmpty = false := by
  cases l with
  | nil => cases h
  | cons a t => rfl

/-- When any field error occurs, `validateCreate` fails with the full
collected error list. -/
theorem validateCreate_error_of_mem {p : ProductCreatePayload} {e : FieldError}
    (h : e ∈ createFieldErrors p) :
    validateCreate p = .error (createFieldErrors p) := by
  unfold validateCreate
  simp [isEmpty_false_of_mem h]

/-- On success, `validateCreate` passes `product_number` through and stores
`none` for `list_price` (the fall-through of `validate_list_price`). -/
theorem validateCreate_ok_fields {p : ProductCreatePayload}
    {v : ProductCreateValidated} (h : validateCreate p = .ok v) :
    v.product_number = p.product_number ∧ v.list_price = none := by
  unfold validateCreate at h
  split at h
  · injection h with h
    subst h
    exact ⟨rfl, rfl⟩
  · cases h

/-- `find?` over an append skips a prefix in which nothing matches. -/
theorem find?_append_of_none {α} {q : α → Bool} {l₁ : List α}
    (h : l₁.find? q = none) (l₂ : List α) :
    (l₁ ++ l₂).find? q = l₂.find? q := by
  induction l₁ with
  | nil => rfl
  | cons a t ih =>
    by_cases ha : q a
    · rw [List.find?_cons_of_pos t ha] at h
      cases h
    · rw [List.find?_cons_of_neg t ha] at h
      rw [List.cons_append, List.find?_cons_of_neg (t ++ l₂) ha]
      exact ih h

/-- Replacing every row keyed `pid` by `q` (itself keyed `pid`) makes the
subsequent lookup of `pid` return `q`, provided `pid` was present. -/
theorem lookup_map_replace (q : ProductRow) {pid : Int}
    (hq : q.product_id = pid) {store : Store} {p : ProductRow}
    (h : lookupStore store pid = some p) :
    lookupStore (store.map fun r => if r.product_id == pid then q else r) pid
      = some q := by
  induction store with
  | nil => cases h
  | cons a t ih =>
    unfold lookupStore at h ⊢
    by_cases ha : (a.product_id == pid) = true
    · simp only [List.map_cons, if_pos ha]
      rw [List.find?_cons_of_pos]
      simp [hq]
    · simp only [List.map_cons, if_neg ha]
      rw [List.find?_cons_of_neg t ha] at h
      rw [List.find?_cons_of_neg
        (List.map (fun r => if (r.product_id == pid) = true then q else r) t) ha]
      exact ih h

/-- A successful lookup returns a row carrying the requested key. -/
theorem lookupStore_some_id {store : Store} {pid : Int} {p : ProductRow}
    (h : lookupStore store pid = some p) : p.product_id = pid := by
  have := List.find?_some h
  simpa using this

/-- Any successful `update_product` call returns the merge of the stored row
with the set payload fields, `modified_date` reassigned, and commits exactly
that row. -/
theorem update_product_ok_eq {store : Store} {pid : Int} {u : UpdatePayload}
    {now : Int} {p row : ProductRow} {store' : Store}
    (hp : lookupStore store pid = some p)
    (h : update_product store pid u now = (.ok row, store')) :
    row = { mergeUpdate p u with modified_date := now } ∧
    store' = store.map fun r => if r.product_id == pid then row else r := by
  unfold update_product at h
  split at h
  · simp at h
  · split at h
    · simp at h
    · next db heq =>
      rw [hp] at heq
      injection heq with heq
      subst heq
      split at h
      · simp at h
      · simp only [Prod.mk.injEq, Except.ok.injEq] at h
        obtain ⟨h1, h2⟩ := h
        subst h1
        exact ⟨rfl, h2.symm⟩

/-! ## Claim theorems -/

/-- C4: for every create payload in which `list_price ≤ standard_cost`
(equality included, by the strict inequality of the validator),
`validateCreate` fails and the returned error set includes a violation
tagged to `list_price`.  Either the `gt=0` field constraint fires (when
`list_price ≤ 0`) or `validate_list_price` fires (then `standard_cost ≥
list_price > 0` passed its own check and is in `values`). -/
theorem create_rejects_list_price_le_cost (p : ProductCreatePayload)
    (h : p.list_price ≤ p.standard_cost) :
    ∃ es, validateCreate p = .error es ∧ ∃ m, ("list_price", m) ∈ es := by
  have hm : ∃ m, ("list_price", m) ∈ listPriceErrors p := by
    unfold listPriceErrors
    by_cases h1 : p.list_price ≤ 0
    · rw [if_pos h1]
      exact ⟨gtZeroMsg, List.mem_singleton_self _⟩
    · have h0 : (0 : ℚ) < p.list_price := not_le.mp h1
      have h2 : (0 : ℚ) < p.standard_cost := lt_of_lt_of_le h0 h
      rw [if_neg h1, if_pos ⟨h2, h⟩]
      exact ⟨_, List.mem_singleton_self _⟩
  obtain ⟨m, hm⟩ := hm
  have hmem : ("list_price", m) ∈ createFieldErrors p := by
    unfold createFieldErrors
    simp only [List.mem_append]
    tauto
  exact ⟨createFieldErrors p, validateCreate_error_of_mem hmem, m, hmem⟩

/-- C4 witness: `list_price` exactly equal to `standard_cost` is rejected
with a `list_price`-tagged violation. -/
def c4Payload : ProductCreatePayload :=
  { name := "Edge Bike", product_number := "EB-01", color := none
    size := none, weight := none, standard_cost := 500, list_price := 500
    product_category_id := none, product_model_id := none
    sell_start_date := 1, sell_end_date := none, discontinued_date := none
    thumbnail_photo := none, thumbnail_photo_file_name := none
    rowguid := "323e4567-e89b-12d3-a456-426614174000" }

theorem create_rejects_list_price_le_cost_witness :
    c4Payload.list_price ≤ c4Payload.standard_cost ∧
    ∃ es, validateCreate c4Payload = .error es ∧
      ∃ m, ("list_price", m) ∈ es :=
  ⟨by decide, create_rejects_list_price_le_cost c4Payload (by decide)⟩

/-- C5: every create payload supplying `sell_end_date < sell_start_date` is
rejected with a `sell_end_date`-tagged violation, and every create payload
supplying `discontinued_date < sell_start_date` is rejected with a
`discontinued_date`-tagged violation. -/
theorem create_rejects_dates_before_start (p : ProductCreatePayload) :
    (∀ e, p.sell_end_date = some e → e < p.sell_start_date →
      ∃ es, validateCreate p = .error es ∧ ∃ m, ("sell_end_date", m) ∈ es) ∧
    (∀ d, p.discontinued_date = some d → d < p.sell_start_date →
      ∃ es, validateCreate p = .error es ∧
        ∃ m, ("discontinued_date", m) ∈ es) := by
  constructor
  · intro e he hlt
    have hm : ("sell_end_date", "sell_end_date must be after sell_start_date")
        ∈ sellEndDateErrors p := by
      unfold sellEndDateErrors
      simp [he, hlt]
    have hmem : ("sell_end_date", "sell_end_date must be after sell_start_date")
        ∈ createFieldErrors p := by
      unfold createFieldErrors
      simp only [List.mem_append]
      tauto
    exact ⟨createFieldErrors p, validateCreate_error_of_mem hmem, _, hmem⟩
  · intro d hd hlt
    have hm : ("discontinued_date",
        "discontinued_date must be after sell_start_date")
        ∈ discontinuedDateErrors p := by
      unfold discontinuedDateErrors
      simp [hd, hlt]
    have hmem : ("discontinued_date",
        "discontinued_date must be after sell_start_date")
        ∈ createFieldErrors p := by
      unfold createFieldErrors
      simp only [List.mem_append]
      tauto
    exact ⟨createFieldErrors p, validateCreate_error_of_mem hmem, _, hmem⟩

/-- C5 witness payload: both dates precede `sell_start_date`. -/
def c5Payload : ProductCreatePayload :=
  { name := "Backdated Bike", product_number := "BD-01", color := none
    size := none, weight := none, standard_cost := 10, list_price := 20
    product_category_id := none, product_model_id := none
    sell_start_date := 10, sell_end_date := some 5, discontinued_date := some 3
    thumbnail_photo := none, thumbnail_photo_file_name := none
    rowguid := "423e4567-e89b-12d3-a456-426614174000" }

theorem create_rejects_dates_before_start_witness :
    (c5Payload.sell_end_date = some 5 ∧ (5 : Int) < c5Payload.sell_start_date ∧
      ∃ es, validateCreate c5Payload = .error es ∧
        ∃ m, ("sell_end_date", m) ∈ es) ∧
    (c5Payload.discontinued_date = some 3 ∧
      (3 : Int) < c5Payload.sell_start_date ∧
      ∃ es, validateCreate c5Payload = .error es ∧
        ∃ m, ("discontinued_date", m) ∈ es) :=
  ⟨⟨rfl, by decide,
    (create_rejects_dates_before_start c5Payload).1 5 rfl (by decide)⟩,
   ⟨rfl, by decide,
    (create_rejects_dates_before_start c5Payload).2 3 rfl (by decide)⟩⟩

/-- C6: for a product id present in storage, an update with the empty
payload succeeds, returns the stored record with only `modified_date`
reassigned to the supplied current time, and stores exactly that record. -/
theorem empty_update_touches_only_modified_date (store : Store) (pid : Int)
    (now : Int) (p : ProductRow) (h : lookupStore store pid = some p) :
    update_product store pid emptyUpdate now =
      (.ok { p with modified_date := now },
       store.map fun r =>
         if r.product_id == pid then { p with modified_date := now } else r) ∧
    lookupStore (update_product store pid emptyUpdate now).2 pid =
      some { p with modified_date := now } := by
  have key : update_product store pid emptyUpdate now =
      (.ok { p with modified_date := now },
       store.map fun r =>
         if r.product_id == pid then { p with modified_date := now } else r) := by
    unfold update_product
    rw [h]
    rfl
  refine ⟨key, ?_⟩
  rw [key]
  have hq0 : p.product_id = pid := lookupStore_some_id h
  have hq : ({ p with modified_date := now } : ProductRow).product_id = pid := hq0
  exact lookup_map_replace _ hq h

/-- C6 witness row with every optional field populated. -/
def c6Row : ProductRow :=
  { product_id := 7, name := "Touring Bike", product_number := "TB-77"
    color := some "Blue", size := some "M", weight := some 12
    standard_cost := 200, list_price := some 350, product_category_id := some 4
    product_model_id := some 9, sell_start_date := 50, sell_end_date := some 60
    discontinued_date := some 70, thumbnail_photo := some [1, 2, 3]
    thumbnail_photo_file_name := some "tb.jpg"
    rowguid := "523e4567-e89b-12d3-a456-426614174000", modified_date := 55 }

theorem empty_update_touches_only_modified_date_witness :
    lookupStore [c6Row] 7 = some c6Row ∧
    (update_product [c6Row] 7 emptyUpdate 99 =
      (.ok { c6Row with modified_date := 99 },
       [c6Row].map fun r =>
         if r.product_id == 7 then { c6Row with modified_date := 99 } else r) ∧
     lookupStore (update_product [c6Row] 7 emptyUpdate 99).2 7 =
       some { c6Row with modified_date := 99 }) :=
  ⟨rfl, empty_update_touches_only_modified_date [c6Row] 7 99 c6Row rfl⟩

/-- C9: in a successful partial update of a stored record, each nullable
field of the result equals the payload value when the field was set — in
particular an explicit null is applied, clearing the stored value — and the
stored value when the field was entirely absent. -/
theorem update_explicit_null_applied (store : Store) (pid : Int)
    (u : UpdatePayload) (now : Int) (p row : ProductRow) (store' : Store)
    (hp : lookupStore store pid = some p)
    (h : update_product store pid u now = (.ok row, store')) :
    row.color = u.color.getD p.color ∧
    row.sell_end_date = u.sell_end_date.getD p.sell_end_date ∧
    row.discontinued_date = u.discontinued_date.getD p.discontinued_date := by
  obtain ⟨hrow, -⟩ := update_product_ok_eq hp h
  subst hrow
  exact ⟨rfl, rfl, rfl⟩

def c9Row : ProductRow :=
  { product_id := 3, name := "City Bike", product_number := "CB-30"
    color := some "Red", size := some "L", weight := some 11
    standard_cost := 150, list_price := some 260, product_category_id := none
    product_model_id := none, sell_start_date := 20, sell_end_date := some 30
    discontinued_date := some 40, thumbnail_photo := none
    thumbnail_photo_file_name := none
    rowguid := "723e4567-e89b-12d3-a456-426614174000", modified_date := 21 }

/-- C9 witness payload: `color`, `sell_end_date` and `discontinued_date`
supplied as explicit nulls, everything else absent. -/
def c9Update : UpdatePayload :=
  { emptyUpdate with
    color := some none, sell_end_date := some none
    discontinued_date := some none }

def c9Out : ProductRow :=
  { c9Row with
    color := none, sell_end_date := none, discontinued_date := none
    modified_date := 22 }

theorem update_explicit_null_applied_witness :
    lookupStore [c9Row] 3 = some c9Row ∧
    update_product [c9Row] 3 c9Update 22 = (.ok c9Out, [c9Out]) ∧
    (c9Out.color = c9Update.color.getD c9Row.color ∧
     c9Out.sell_end_date = c9Update.sell_end_date.getD c9Row.sell_end_date ∧
     c9Out.discontinued_date =
       c9Update.discontinued_date.getD c9Row.discontinued_date) :=
  ⟨rfl, rfl,
   update_explicit_null_applied [c9Row] 3 c9Update 22 c9Row c9Out [c9Out]
     rfl rfl⟩

/-- C10: a successful update never changes the primary identifier: the
payload type has no `product_id` field, so the merge returns a row with the
stored `product_id`. -/
theorem update_preserves_product_id (store : Store) (pid : Int)
    (u : UpdatePayload) (now : Int) (p row : ProductRow) (store' : Store)
    (hp : lookupStore store pid = some p)
    (h : update_product store pid u now = (.ok row, store')) :
    row.product_id = p.product_id := by
  obtain ⟨hrow, -⟩ := update_product_ok_eq hp h
  subst hrow
  rfl

def c10Row : ProductRow :=
  { product_id := 4, name := "Gravel Bike", product_number := "GB-40"
    color := none, size := none, weight := none, standard_cost := 120
    list_price := some 200, product_category_id := none
    product_model_id := none, sell_start_date := 30, sell_end_date := none
    discontinued_date := none, thumbnail_photo := none
    thumbnail_photo_file_name := none
    rowguid := "823e4567-e89b-12d3-a456-426614174000", modified_date := 31 }

def c10Update : UpdatePayload := { emptyUpdate with name := some "Renamed Bike" }

def c10Out : ProductRow :=
  { c10Row with name := "Renamed Bike", modified_date := 33 }

theorem update_preserves_product_id_witness :
    lookupStore [c10Row] 4 = some c10Row ∧
    update_product [c10Row] 4 c10Update 33 = (.ok c10Out, [c10Out]) ∧
    c10Out.product_id = c10Row.product_id :=
  ⟨rfl, rfl,
   update_preserves_product_id [c10Row] 4 c10Update 33 c10Row c10Out [c10Out]
     rfl rfl⟩

/-- C8: a `get` for an identifier absent from storage returns a not-found
error carrying that identifier; the read leaves the store untouched. -/
theorem get_absent_is_not_found (store : Store) (pid : Int)
    (h : lookupStore store pid = none) :
    get_product store pid = .error (.notFound pid) := by
  unfold get_product
  rw [h]

theorem get_absent_is_not_found_witness :
    lookupStore [] 9999999 = none ∧
    get_product [] 9999999 = .error (.notFound 9999999) :=
  ⟨rfl, get_absent_is_not_found [] 9999999 rfl⟩

/-- C7: two creates with the same `product_number` against a store not yet
containing that number: the first (with a payload passing validation)
succeeds and commits its row; the second fails with a conflict naming the
colliding `product_number` and leaves the store as the first call left it. -/
theorem create_same_number_twice_conflicts (store : Store)
    (p₁ p₂ : ProductCreatePayload) (v₁ v₂ : ProductCreateValidated)
    (id₁ id₂ t₁ t₂ : Int)
    (h1 : validateCreate p₁ = .ok v₁) (h2 : validateCreate p₂ = .ok v₂)
    (hpn : p₂.product_number = p₁.product_number)
    (habs : findByNumber store p₁.product_number = none) :
    create_product store p₁ id₁ t₁ =
      (.ok (rowOfValidated id₁ t₁ v₁), store ++ [rowOfValidated id₁ t₁ v₁]) ∧
    create_product (store ++ [rowOfValidated id₁ t₁ v₁]) p₂ id₂ t₂ =
      (.error (.conflict p₁.product_number),
       store ++ [rowOfValidated id₁ t₁ v₁]) := by
  obtain ⟨hv1, -⟩ := validateCreate_ok_fields h1
  obtain ⟨hv2, -⟩ := validateCreate_ok_fields h2
  have hfind : findByNumber (store ++ [rowOfValidated id₁ t₁ v₁])
      p₁.product_number = some (rowOfValidated id₁ t₁ v₁) := by
    unfold findByNumber at habs ⊢
    rw [find?_append_of_none habs]
    rw [List.find?_cons_of_pos []]
    show ((rowOfValidated id₁ t₁ v₁).product_number == p₁.product_number) = true
    rw [show (rowOfValidated id₁ t₁ v₁).product_number = v₁.product_number from
      rfl, hv1]
    simp
  constructor
  · simp only [create_product, h1, hv1, habs]
  · simp only [create_product, h2, hv2, hpn, hfind]

/-- C7 witness payload, the spec's scenario key `BK-NEW-001`. -/
def c7Payload : ProductCreatePayload :=
  { name := "New Bike", product_number := "BK-NEW-001", color := none
    size := none, weight := none, standard_cost := 100, list_price := 150
    product_category_id := none, product_model_id := none
    sell_start_date := 1, sell_end_date := none, discontinued_date := none
    thumbnail_photo := none, thumbnail_photo_file_name := none
    rowguid := "623e4567-e89b-12d3-a456-426614174000" }

def c7Validated : ProductCreateValidated :=
  { name := "New Bike", product_number := "BK-NEW-001", color := none
    size := none, weight := none, standard_cost := 100, list_price := none
    product_category_id := none, product_model_id := none
    sell_start_date := 1, sell_end_date := none, discontinued_date := none
    thumbnail_photo := none, thumbnail_photo_file_name := none
    rowguid := "623e4567-e89b-12d3-a456-426614174000" }

theorem create_same_number_twice_conflicts_witness :
    validateCreate c7Payload = .ok c7Validated ∧
    findByNumber [] c7Payload.product_number = none ∧
    (create_product [] c7Payload 1 10 =
      (.ok (rowOfValidated 1 10 c7Validated),
       [] ++ [rowOfValidated 1 10 c7Validated]) ∧
     create_product ([] ++ [rowOfValidated 1 10 c7Validated]) c7Payload 2 11 =
      (.error (.conflict c7Payload.product_number),
       [] ++ [rowOfValidated 1 10 c7Validated])) :=
  ⟨rfl, rfl,
   create_same_number_twice_conflicts [] c7Payload c7Payload c7Validated
     c7Validated 1 2 10 11 rfl rfl rfl rfl⟩

/-- 899.99 as an exact rational (the spec's example `list_price`). -/
def q899_99 : ℚ := ⟨89999, 100, by norm_num, by norm_num⟩

/-- The spec's example create payload: `standard_cost` 500.00,
`list_price` 899.99, all constraints satisfied. -/
def c1Payload : ProductCreatePayload :=
  { name := "Mountain Bike", product_number := "MB-20", color := none
    size := none, weight := none, standard_cost := 500, list_price := q899_99
    product_category_id := none, product_model_id := none
    sell_start_date := 20250101, sell_end_date := none, discontinued_date := none
    thumbnail_photo := none, thumbnail_photo_file_name := none
    rowguid := "123e4567-e89b-12d3-a456-426614174000" }

/-- What `validateCreate` actually returns on `c1Payload`. -/
def c1Validated : ProductCreateValidated :=
  { name := "Mountain Bike", product_number := "MB-20", color := none
    size := none, weight := none, standard_cost := 500, list_price := none
    product_category_id := none, product_model_id := none
    sell_start_date := 20250101, sell_end_date := none, discontinued_date := none
    thumbnail_photo := none, thumbnail_photo_file_name := none
    rowguid := "123e4567-e89b-12d3-a456-426614174000" }

/-- C1, refuted on the code: on a fully valid create payload with
`list_price > standard_cost`, validation succeeds but the validated record's
`list_price` is `none` — not the supplied value — because
`ProductBase.validate_list_price` has no `return` statement. -/
theorem create_valid_payload_loses_list_price :
    c1Payload.standard_cost < c1Payload.list_price ∧
    validateCreate c1Payload = .ok c1Validated ∧
    c1Validated.list_price = none ∧
    c1Validated.list_price ≠ some c1Payload.list_price :=
  ⟨by decide, rfl, rfl, by decide⟩

/-- The spec's example stored record: `standard_cost` 500.00,
`list_price` 899.99. -/
def c2Existing : ProductRow :=
  { product_id := 1, name := "Mountain Bike", product_number := "MB-20"
    color := none, size := none, weight := none, standard_cost := 500
    list_price := some q899_99, product_category_id := none
    product_model_id := none, sell_start_date := 20250101
    sell_end_date := none, discontinued_date := none, thumbnail_photo := none
    thumbnail_photo_file_name := none
    rowguid := "123e4567-e89b-12d3-a456-426614174000"
    modified_date := 20250102 }

/-- The spec's example update payload: `list_price` 400.00 alone. -/
def c2Update : UpdatePayload := { emptyUpdate with list_price := some 400 }

/-- C2, refuted on the code: an update supplying only `list_price` 400
against a stored `standard_cost` of 500 is accepted — the update validator
reads `standard_cost` from the payload, never from the stored record — and
the store is rewritten with the new, invariant-violating price. -/
theorem update_ignores_stored_standard_cost :
    c2Update.list_price = some 400 ∧
    c2Update.standard_cost = none ∧
    c2Existing.standard_cost = 500 ∧
    (400 : ℚ) < 500 ∧
    update_product [c2Existing] 1 c2Update 20250103 =
      (.ok { c2Existing with list_price := some 400, modified_date := 20250103 },
       [{ c2Existing with list_price := some 400, modified_date := 20250103 }]) :=
  ⟨rfl, rfl, rfl, by decide, rfl⟩

def c3Existing : ProductRow :=
  { product_id := 2, name := "Road Bike", product_number := "RB-10"
    color := none, size := none, weight := none, standard_cost := 300
    list_price := some 1000, product_category_id := none
    product_model_id := none, sell_start_date := 100
    sell_end_date := none, discontinued_date := none, thumbnail_photo := none
    thumbnail_photo_file_name := none
    rowguid := "223e4567-e89b-12d3-a456-426614174000", modified_date := 101 }

def c3Update : UpdatePayload := { emptyUpdate with list_price := some 250 }

def c3Row : ProductRow :=
  { c3Existing with list_price := some 250, modified_date := 102 }

/-- C3, refuted on the code: a successful update persists a row whose
`list_price` (250) is below its `standard_cost` (300), so invariant I1
(`list_price > standard_cost` for every persisted row) does not survive the
update operation. -/
theorem update_persists_price_below_cost :
    update_product [c3Existing] 2 c3Update 102 = (.ok c3Row, [c3Row]) ∧
    c3Row.list_price = some 250 ∧
    c3Row.standard_cost = 300 ∧
    ¬ (∀ lp, c3Row.list_price = some lp → c3Row.standard_cost < lp) :=
  ⟨rfl, rfl, rfl, fun hall => absurd (hall 250 rfl) (by decide)⟩
